import Mathlib

/-
Verification of the dynamic component rendering subsystem of the
ai-meeting-summarizer repository: the component registry
(component-registry.service.ts) and the dynamic renderer
(dynamic-renderer.component.ts), shallowly embedded in Lean.

Conventions of the embedding:
* TypeScript strings are Lean `String`; integer priorities are `Int`;
  clock readings (performance.now, Date) are abstract `Nat` instants
  supplied as parameters.
* JavaScript objects used as count maps (`obj[k] = (obj[k] || 0) + 1`)
  are association lists `List (String × Nat)` updated in place.
* The opaque `any` data payloads are modelled by the inductive `DataVal`.
* Angular `ViewContainerRef.createComponent` (the host), and whether a
  freshly constructed widget instance exposes the optional
  `onDataChange` / `onInteraction` hooks, are abstracted by a
  `HostBehavior` oracle; a thrown host error is `Option String`.
* Thrown `Error`s become `Except` values carrying a structured error.
-/

namespace DynRender

/-- One manifest entry (interface AGUIComponent of agui.models.ts):
id, open string type, title, integer priority, category, opaque data
payload (modelled as a `Nat` token) and the agui_spec version string. -/
structure AGUIComponent where
  id : String
  type : String
  title : String
  priority : Int
  category : String
  data : Nat
  aguiSpecVersion : String
deriving DecidableEq, Repr

/-- The manifest (interface AGUIMessage of agui.models.ts): protocol
version, message kind, session id, timestamp, and an optional ordered
list of entries.  `components = none` models a missing/undefined
components field; `some []` models a present but empty array, which is
truthy in JavaScript. -/
structure AGUIMessage where
  version : String
  msgType : String
  sessionId : String
  timestamp : String
  components : Option (List AGUIComponent)
deriving DecidableEq, Repr

/-- Registry entry (interface ComponentMetadata of
component-registry.service.ts).  The Angular component class is
modelled by its class name. -/
structure ComponentMetadata where
  componentClass : String
  fallbackType : Option String
  requiresInteraction : Bool
  category : String
  displayName : String
  description : String
deriving DecidableEq, Repr

/-- The registry map (private componentRegistry : Map<ComponentType,
ComponentMetadata>), modelled as an association list with Map
insert-or-overwrite semantics. -/
abbrev Registry := List (String × ComponentMetadata)

/-- Map.get: first binding for the key, if any. -/
def regGet : Registry → String → Option ComponentMetadata
  | [], _ => none
  | (t, m) :: rest, ty => if t = ty then some m else regGet rest ty

/-- Map.set: overwrite the existing binding or append a new one. -/
def regSet : Registry → String → ComponentMetadata → Registry
  | [], ty, m => [(ty, m)]
  | (t, m0) :: rest, ty, m =>
      if t = ty then (ty, m) :: rest else (t, m0) :: regSet rest ty m

/-- The partial metadata argument of registerComponent
(Partial<ComponentMetadata>). -/
structure PartialMetadata where
  fallbackType : Option String
  requiresInteraction : Option Bool
  category : Option String
  displayName : Option String
  description : Option String
deriving DecidableEq, Repr

/-- registerComponent: fills the defaults (`?? false`, `?? 'general'`,
`?? type`, a generated description) and inserts into the registry. -/
def registerComponent (reg : Registry) (ty : String) (cls : String)
    (p : PartialMetadata) : Registry :=
  regSet reg ty
    { componentClass := cls
      requiresInteraction := p.requiresInteraction.getD false
      category := p.category.getD "general"
      displayName := p.displayName.getD ty
      description := p.description.getD ("Dynamic " ++ ty ++ " component")
      fallbackType := p.fallbackType }

/-- Helper: the partial metadata literal used by initializeRegistry
(no fallbackType is ever passed there). -/
def initMeta (cat disp desc : String) : PartialMetadata :=
  { fallbackType := none
    requiresInteraction := some true
    category := some cat
    displayName := some disp
    description := some desc }

/-- initializeRegistry: the six registrations performed in the
registry constructor, in source order. -/
def defaultRegistry : Registry :=
  let r0 : Registry := []
  let r1 := registerComponent r0 "text_section" "TextSectionComponent"
    (initMeta "content" "Text Section"
      "Displays formatted text content with optional key points and metadata")
  let r2 := registerComponent r1 "checklist" "ChecklistComponent"
    (initMeta "action" "Checklist"
      "Interactive task list with checkboxes, progress tracking, and status management")
  let r3 := registerComponent r2 "alert_list" "AlertListComponent"
    (initMeta "risk" "Alert List"
      "Interactive alerts, risks, and issues with severity levels and status tracking")
  let r4 := registerComponent r3 "timeline" "TimelineComponent"
    (initMeta "outcome" "Timeline"
      "Chronological view of events, milestones, and deadlines with status tracking")
  let r5 := registerComponent r4 "metrics_grid" "MetricsGridComponent"
    (initMeta "outcome" "Metrics Grid"
      "Grid of key performance indicators, statistics, and metrics with trend visualization")
  registerComponent r5 "status_cards" "StatusCardsComponent"
    (initMeta "overview" "Status Cards"
      "Status overview cards for departments, projects, or features with progress tracking")

/-- private readonly DEFAULT_FALLBACK: ComponentType = 'text_section'. -/
def DEFAULT_FALLBACK : String := "text_section"

/-- The hardcoded fallbackMappings table inside findFallbackComponent:
every listed type falls back to text_section; any other type has no
mapping. -/
def fallbackMappings : String → Option String
  | "data_table" => some "text_section"
  | "checklist" => some "text_section"
  | "alert_list" => some "text_section"
  | "timeline" => some "text_section"
  | "metrics_grid" => some "text_section"
  | "progress_bar" => some "text_section"
  | "decision_log" => some "text_section"
  | "people_grid" => some "text_section"
  | "comparison_table" => some "text_section"
  | "status_cards" => some "text_section"
  | _ => none

/-- findFallbackComponent: look the requested type up in the static
mapping table; on a hit return the registry entry of the mapped type
(possibly undefined) together with that type, otherwise undefined
metadata and the requested type. -/
def findFallbackComponent (reg : Registry) (requestedType : String) :
    Option ComponentMetadata × String :=
  match fallbackMappings requestedType with
  | some fbTy => (regGet reg fbTy, fbTy)
  | none => (none, requestedType)

/-- Errors thrown inside createComponent: the fatal configuration
error (default fallback unregistered) and a host instantiation
rejection with its cause. -/
inductive CreateError where
  | configError (defaultType : String)
  | hostError (cause : String)
deriving DecidableEq, Repr

/-- The renderer-injected `_agui` context block merged into a widget
payload by setupComponentMetadata. -/
structure AguiMeta where
  id : String
  type : String
  title : String
  priority : Int
  category : String
  specVersion : String
deriving DecidableEq, Repr

/-- Opaque widget data values: either a raw manifest payload token or
a payload merged with the `_agui` context block. -/
inductive DataVal where
  | raw (payload : Nat)
  | merged (payload : Nat) (agui : AguiMeta)
deriving DecidableEq, Repr

/-- A managed widget instance as the renderer sees it: the manifest
entry it was created from, the actual instantiated type, the current
`instance.data`, and whether the freshly constructed instance exposed
the two optional hooks (the truthiness of `instance.onDataChange` /
`instance.onInteraction` when the event handlers were wired). -/
structure CreatedInstance where
  comp : AGUIComponent
  actualType : String
  data : DataVal
  hasDataChangeHook : Bool
  hasInteractionHook : Bool
deriving DecidableEq, Repr

/-- Result of createComponent (interface ComponentCreationResult):
the created instance (componentRef), the metadata used, whether the
requested type was used verbatim, and the actual type instantiated. -/
structure CreationResult where
  componentRef : CreatedInstance
  metadata : ComponentMetadata
  wasOriginalType : Bool
  actualType : String
deriving DecidableEq, Repr

/-- Oracle abstracting the Angular host: whether
container.createComponent throws for a given entry (and with what
cause), and whether the constructed widget instance exposes each
optional hook. -/
structure HostBehavior where
  createError : AGUIComponent → Option String
  exposesDataChange : AGUIComponent → Bool
  exposesInteraction : AGUIComponent → Bool

/-- The resolution section of createComponent, before the try block:
the requested type, then the static fallback mapping, then
DEFAULT_FALLBACK; if even the default is unregistered the
configuration error is thrown.  The result is the metadata used, the
actual type, and the wasOriginalType flag. -/
def resolveComponentType (reg : Registry) (ty : String) :
    Except CreateError (ComponentMetadata × String × Bool) :=
  match regGet reg ty with
  | some m => .ok (m, ty, true)
  | none =>
    match findFallbackComponent reg ty with
    | (some m, fbTy) => .ok (m, fbTy, false)
    | (none, _) =>
      match regGet reg DEFAULT_FALLBACK with
      | some m => .ok (m, DEFAULT_FALLBACK, false)
      | none => .error (.configError DEFAULT_FALLBACK)

/-- createComponent of ComponentRegistryService: resolve the type
(possibly through the fallback chain), then ask the host to
instantiate; a host rejection is rethrown.  On success the instance
holds the raw payload (`componentRef.instance.data = data`) and the
hook-presence flags observed on the fresh instance. -/
def createComponent (reg : Registry) (host : HostBehavior)
    (c : AGUIComponent) : Except CreateError CreationResult :=
  match resolveComponentType reg c.type with
  | .error e => .error e
  | .ok (m, actualType, wasOriginal) =>
    match host.createError c with
    | some cause => .error (.hostError cause)
    | none =>
      .ok { componentRef :=
              { comp := c
                actualType := actualType
                data := DataVal.raw c.data
                hasDataChangeHook := host.exposesDataChange c
                hasInteractionHook := host.exposesInteraction c }
            metadata := m
            wasOriginalType := wasOriginal
            actualType := actualType }

/-- The wrapped failure thrown by renderSingleComponent: the message
`Failed to render component {id} of type {type}: {error}`, kept
structured as the failing entry id, its requested type, and the
underlying cause. -/
structure RenderFailure where
  componentId : String
  componentType : String
  cause : CreateError
deriving DecidableEq, Repr

/-- Render statistics (interface RenderStatistics of
dynamic-renderer.component.ts).  The two count maps are JavaScript
objects modelled as association lists; renderTime is the elapsed
clock difference in abstract time units. -/
structure RenderStatistics where
  totalComponents : Nat
  componentsByType : List (String × Nat)
  componentsByCategory : List (String × Nat)
  renderTime : Nat
  fallbacksUsed : Nat
deriving DecidableEq, Repr

/-- The mutable fields of DynamicRendererComponent that the modelled
operations touch: the managed componentRef array, the statistics, the
isRendering flag, the last render error, and the number of views
mounted in the dynamic host container. -/
structure RendererState where
  createdComponents : List CreatedInstance
  renderStats : RenderStatistics
  isRendering : Bool
  renderErrorMessage : Option RenderFailure
  containerViews : Nat
deriving DecidableEq, Repr

/-- Interaction event payloads handed to a widget interaction hook:
an optional `type` field (absent, or present, possibly the empty
string, which is falsy in JavaScript) and an opaque payload token. -/
structure EventData where
  type : Option String
  payload : Nat
deriving DecidableEq, Repr

/-- JavaScript `x || d` on the optional string `eventData.type`:
undefined and the empty string are falsy. -/
def jsOrElse (x : Option String) (d : String) : String :=
  match x with
  | none => d
  | some s => if s = "" then d else s

/-- interface ComponentInteractionEvent. -/
structure ComponentInteractionEvent where
  componentId : String
  componentType : String
  eventType : String
  eventData : EventData
  timestamp : Nat
deriving DecidableEq, Repr

/-- interface ComponentDataChangeEvent. -/
structure ComponentDataChangeEvent where
  componentId : String
  componentType : String
  oldData : DataVal
  newData : DataVal
  timestamp : Nat
deriving DecidableEq, Repr

/-- The events a render pass publishes to the host: renderComplete
emissions (statistics snapshots) and renderError emissions. -/
structure RenderOutput where
  completions : List RenderStatistics
  failures : List RenderFailure
deriving DecidableEq, Repr

/-- The all-zero statistics record written by resetRenderStats. -/
def initStats : RenderStatistics :=
  { totalComponents := 0
    componentsByType := []
    componentsByCategory := []
    renderTime := 0
    fallbacksUsed := 0 }

/-- resetRenderStats: replace the statistics with the initial state. -/
def resetRenderStats (st : RendererState) : RendererState :=
  { st with renderStats := initStats }

/-- destroyAllComponents: the per-ref loop guard
`componentRef && !componentRef.destroy` is never satisfied (destroy is
always a defined method on a ComponentRef), so the loop itself has no
effect; the componentRef array is then cleared and
dynamicContainer.clear() destroys and removes every view mounted in
the host container. -/
def destroyAllComponents (st : RendererState) : RendererState :=
  { st with createdComponents := [], containerViews := 0 }

/-- clearComponents: destroyAllComponents followed by
resetRenderStats. -/
def clearComponents (st : RendererState) : RendererState :=
  resetRenderStats (destroyAllComponents st)

/-- The fresh initial state of a DynamicRendererComponent. -/
def initialRendererState : RendererState :=
  { createdComponents := []
    renderStats := initStats
    isRendering := false
    renderErrorMessage := none
    containerViews := 0 }

/-- JavaScript `obj[k] = (obj[k] || 0) + 1` on a count object. -/
def bump : List (String × Nat) → String → List (String × Nat)
  | [], k => [(k, 1)]
  | (k0, v) :: rest, k =>
      if k0 = k then (k, v + 1) :: rest else (k0, v) :: bump rest k

/-- updateRenderStats: increment the total, bump the count for the
actual created type and for the entry category, and count a fallback
when the original type was not used. -/
def updateRenderStats (c : AGUIComponent) (result : CreationResult)
    (stats : RenderStatistics) : RenderStatistics :=
  { totalComponents := stats.totalComponents + 1
    componentsByType := bump stats.componentsByType result.actualType
    componentsByCategory := bump stats.componentsByCategory c.category
    renderTime := stats.renderTime
    fallbacksUsed :=
      if result.wasOriginalType then stats.fallbacksUsed
      else stats.fallbacksUsed + 1 }

/-- The comparator `(a, b) => a.priority - b.priority` as the boolean
total preorder it induces: a may stay before b iff its priority is
not larger. -/
def priorityLe (a b : AGUIComponent) : Bool := a.priority ≤ b.priority

/-- Insert an entry into a list, before the first element of priority
not smaller than its own.  Together with `sortComponents` this is the
stable ascending-priority sort performed by
`[...components].sort((a, b) => a.priority - b.priority)`
(Array.prototype.sort is stable, so any stable sort with this
comparator denotes it; we use insertion sort). -/
def orderedInsert (a : AGUIComponent) :
    List AGUIComponent → List AGUIComponent
  | [] => [a]
  | b :: t => if priorityLe a b then a :: b :: t else b :: orderedInsert a t

/-- The stable ascending-priority sort of the manifest entries. -/
def sortComponents : List AGUIComponent → List AGUIComponent
  | [] => []
  | a :: t => orderedInsert a (sortComponents t)

/-- The default of the maxComponents input of
DynamicRendererComponent. -/
def defaultMaxComponents : Nat := 50

/-- The `_agui` context block built by setupComponentMetadata from a
manifest entry. -/
def aguiMetaOf (c : AGUIComponent) : AguiMeta :=
  { id := c.id
    type := c.type
    title := c.title
    priority := c.priority
    category := c.category
    specVersion := c.aguiSpecVersion }

/-- renderSingleComponent: ask the registry for an instance, push the
componentRef (one new view is now mounted in the container), overwrite
`instance.data` with the payload merged with the `_agui` block
(setupComponentMetadata), wire the event handlers (captured by the
hook-presence flags), and update the statistics.  Any creation error
is wrapped with the failing entry id and requested type and rethrown. -/
def renderSingleComponent (reg : Registry) (host : HostBehavior)
    (c : AGUIComponent) (st : RendererState) :
    Except RenderFailure RendererState :=
  match createComponent reg host c with
  | .error e =>
      .error { componentId := c.id, componentType := c.type, cause := e }
  | .ok result =>
      let inst :=
        { result.componentRef with
            data := DataVal.merged c.data (aguiMetaOf c) }
      .ok { st with
              createdComponents := st.createdComponents ++ [inst]
              containerViews := st.containerViews + 1
              renderStats := updateRenderStats c result st.renderStats }

/-- The sequential `for (const aguiComponent of sortedComponents)`
loop: render entries one at a time; the first failure aborts the rest
of the batch, leaving the state as it was after the last success. -/
def renderLoop (reg : Registry) (host : HostBehavior) :
    List AGUIComponent → RendererState →
    RendererState × Option RenderFailure
  | [], st => (st, none)
  | c :: rest, st =>
      match renderSingleComponent reg host c st with
      | .error e => (st, some e)
      | .ok st1 => renderLoop reg host rest st1

/-- renderComponents: if the message is null or its components field
is absent (an empty array is truthy and does not trigger the guard),
clearComponents and return, emitting nothing.  Otherwise destroy the
previous instances, reset the statistics and the error message, sort
the entries by ascending priority with a stable sort, truncate to
maxComponents, and render sequentially.  On success, record the
elapsed time and emit one renderComplete snapshot; on failure, record
the wrapped error and emit one renderError.  isRendering is true
during the pass and reset in the finally block; startTime and endTime
are the performance.now readings around the pass. -/
def renderComponents (reg : Registry) (host : HostBehavior)
    (maxComponents : Nat) (startTime endTime : Nat)
    (msg : Option AGUIMessage) (st : RendererState) :
    RendererState × RenderOutput :=
  match msg with
  | none => (clearComponents st, { completions := [], failures := [] })
  | some m =>
    match m.components with
    | none => (clearComponents st, { completions := [], failures := [] })
    | some comps =>
      let st1 :=
        resetRenderStats
          (destroyAllComponents
            { st with isRendering := true, renderErrorMessage := none })
      let sorted := (sortComponents comps).take maxComponents
      match renderLoop reg host sorted st1 with
      | (st2, none) =>
          let finalStats :=
            { st2.renderStats with renderTime := endTime - startTime }
          ({ st2 with renderStats := finalStats, isRendering := false },
           { completions := [finalStats], failures := [] })
      | (st2, some f) =>
          ({ st2 with renderErrorMessage := some f, isRendering := false },
           { completions := [], failures := [f] })

/-- Invoke the interaction hook of the i-th managed instance with an
event payload at instant `now`.  When the wrapper was installed
(the instance exposed the hook at wiring time) exactly one
ComponentInteractionEvent is emitted to the host, with the entry id
and requested type captured by the wrapper closure, the event type
defaulting to "interaction" when the payload type is falsy, and a
fresh timestamp; the renderer state is not modified. -/
def invokeInteraction (st : RendererState) (i : Nat) (ev : EventData)
    (now : Nat) : RendererState × List ComponentInteractionEvent :=
  match st.createdComponents[i]? with
  | none => (st, [])
  | some inst =>
      if inst.hasInteractionHook then
        (st, [{ componentId := inst.comp.id
                componentType := inst.comp.type
                eventType := jsOrElse ev.type "interaction"
                eventData := ev
                timestamp := now }])
      else (st, [])

/-- Invoke the data-change hook of the i-th managed instance with a
new data value at instant `now`.  When the wrapper was installed,
exactly one ComponentDataChangeEvent is emitted carrying the current
`instance.data` as oldData; the wrapper does not write newData back,
so the renderer state (including the instance data record) is
unchanged. -/
def invokeDataChange (st : RendererState) (i : Nat) (newData : DataVal)
    (now : Nat) : RendererState × List ComponentDataChangeEvent :=
  match st.createdComponents[i]? with
  | none => (st, [])
  | some inst =>
      if inst.hasDataChangeHook then
        (st, [{ componentId := inst.comp.id
                componentType := inst.comp.type
                oldData := inst.data
                newData := newData
                timestamp := now }])
      else (st, [])

/-- Sum of the counts of a JavaScript count object. -/
def sumCounts (l : List (String × Nat)) : Nat :=
  (l.map Prod.snd).sum

/-- The statistics bookkeeping invariant: the recorded total equals
the number of managed instances and the sums of both count maps. -/
def statsConsistent (st : RendererState) : Prop :=
  st.renderStats.totalComponents = st.createdComponents.length ∧
  st.renderStats.totalComponents = sumCounts st.renderStats.componentsByType ∧
  st.renderStats.totalComponents = sumCounts st.renderStats.componentsByCategory

/-! Shared lemmas about the embedded operations. -/

theorem sumCounts_bump (l : List (String × Nat)) (k : String) :
    sumCounts (bump l k) = sumCounts l + 1 := by
  induction l with
  | nil => rfl
  | cons hd tl ih =>
      obtain ⟨k0, v⟩ := hd
      by_cases h : k0 = k
      · simp [bump, h, sumCounts]
        omega
      · simp [bump, h, sumCounts] at ih ⊢
        omega

theorem createComponent_ok_fields (reg : Registry) (host : HostBehavior)
    (c : AGUIComponent) (r : CreationResult)
    (h : createComponent reg host c = .ok r) :
    r.componentRef.comp = c ∧
    r.componentRef.data = DataVal.raw c.data ∧
    r.componentRef.actualType = r.actualType ∧
    r.componentRef.hasDataChangeHook = host.exposesDataChange c ∧
    r.componentRef.hasInteractionHook = host.exposesInteraction c := by
  unfold createComponent at h
  cases hres : resolveComponentType reg c.type with
  | error e => rw [hres] at h; exact absurd h (by simp)
  | ok t =>
      obtain ⟨m, aTy, wo⟩ := t
      rw [hres] at h
      cases hhost : host.createError c with
      | some cause => rw [hhost] at h; exact absurd h (by simp)
      | none =>
          rw [hhost] at h
          simp only [Except.ok.injEq] at h
          subst h
          exact ⟨rfl, rfl, rfl, rfl, rfl⟩

theorem renderSingleComponent_ok (reg : Registry) (host : HostBehavior)
    (c : AGUIComponent) (st : RendererState) (r : CreationResult)
    (h : createComponent reg host c = .ok r) :
    renderSingleComponent reg host c st =
      .ok { st with
              createdComponents := st.createdComponents ++
                [{ r.componentRef with
                     data := DataVal.merged c.data (aguiMetaOf c) }]
              containerViews := st.containerViews + 1
              renderStats := updateRenderStats c r st.renderStats } := by
  unfold renderSingleComponent
  rw [h]

theorem renderSingleComponent_error (reg : Registry) (host : HostBehavior)
    (c : AGUIComponent) (st : RendererState) (e : CreateError)
    (h : createComponent reg host c = .error e) :
    renderSingleComponent reg host c st =
      .error { componentId := c.id, componentType := c.type, cause := e } := by
  unfold renderSingleComponent
  rw [h]

theorem renderLoop_ok_spec (reg : Registry) (host : HostBehavior)
    (l : List AGUIComponent) :
    ∀ st : RendererState,
    (∀ x ∈ l, ∃ r, createComponent reg host x = .ok r) →
    ∃ st1, renderLoop reg host l st = (st1, none) ∧
      st1.createdComponents.map (fun i => i.comp) =
        st.createdComponents.map (fun i => i.comp) ++ l ∧
      st1.renderStats.totalComponents =
        st.renderStats.totalComponents + l.length ∧
      st1.containerViews = st.containerViews + l.length ∧
      st1.isRendering = st.isRendering ∧
      st1.renderErrorMessage = st.renderErrorMessage := by
  induction l with
  | nil =>
      intro st _
      exact ⟨st, rfl, by simp, by simp, by simp, rfl, rfl⟩
  | cons c rest ih =>
      intro st h
      obtain ⟨r, hr⟩ := h c (by simp)
      have hstep := renderSingleComponent_ok reg host c st r hr
      obtain ⟨st1, hloop, hmap, htot, hview, hrend, herr⟩ :=
        ih { st with
               createdComponents := st.createdComponents ++
                 [{ r.componentRef with
                      data := DataVal.merged c.data (aguiMetaOf c) }]
               containerViews := st.containerViews + 1
               renderStats := updateRenderStats c r st.renderStats }
          (fun x hx => h x (List.mem_cons_of_mem _ hx))
      have hcomp : r.componentRef.comp = c :=
        (createComponent_ok_fields reg host c r hr).1
      refine ⟨st1, ?_, ?_, ?_, ?_, ?_, ?_⟩
      · rw [renderLoop, hstep]
        exact hloop
      · rw [hmap]
        simp [hcomp]
      · rw [htot]
        simp [updateRenderStats]
        omega
      · rw [hview]
        simp only [List.length_cons]
        omega
      · rw [hrend]
      · rw [herr]

theorem renderLoop_fail_spec (reg : Registry) (host : HostBehavior)
    (pre : List AGUIComponent) (c : AGUIComponent)
    (post : List AGUIComponent) (e : CreateError) :
    ∀ st : RendererState,
    (∀ x ∈ pre, ∃ r, createComponent reg host x = .ok r) →
    createComponent reg host c = .error e →
    ∃ st1, renderLoop reg host (pre ++ c :: post) st =
        (st1, some { componentId := c.id, componentType := c.type, cause := e }) ∧
      st1.createdComponents.map (fun i => i.comp) =
        st.createdComponents.map (fun i => i.comp) ++ pre ∧
      st1.renderStats.totalComponents =
        st.renderStats.totalComponents + pre.length ∧
      st1.containerViews = st.containerViews + pre.length := by
  induction pre with
  | nil =>
      intro st _ hf
      refine ⟨st, ?_, by simp, by simp, by simp⟩
      rw [List.nil_append, renderLoop, renderSingleComponent_error reg host c st e hf]
  | cons a rest ih =>
      intro st h hf
      obtain ⟨r, hr⟩ := h a (by simp)
      have hstep := renderSingleComponent_ok reg host a st r hr
      obtain ⟨st1, hloop, hmap, htot, hview⟩ :=
        ih { st with
               createdComponents := st.createdComponents ++
                 [{ r.componentRef with
                      data := DataVal.merged a.data (aguiMetaOf a) }]
               containerViews := st.containerViews + 1
               renderStats := updateRenderStats a r st.renderStats }
          (fun x hx => h x (List.mem_cons_of_mem _ hx)) hf
      have hcomp : r.componentRef.comp = a :=
        (createComponent_ok_fields reg host a r hr).1
      refine ⟨st1, ?_, ?_, ?_, ?_⟩
      · rw [List.cons_append, renderLoop, hstep]
        exact hloop
      · rw [hmap]
        simp [hcomp]
      · rw [htot]
        simp [updateRenderStats]
        omega
      · rw [hview]
        simp only [List.length_cons]
        omega

theorem statsConsistent_renderSingle (reg : Registry) (host : HostBehavior)
    (c : AGUIComponent) (st st1 : RendererState)
    (hc : renderSingleComponent reg host c st = .ok st1)
    (h : statsConsistent st) : statsConsistent st1 := by
  unfold renderSingleComponent at hc
  cases hcc : createComponent reg host c with
  | error e => rw [hcc] at hc; exact absurd hc (by simp)
  | ok r =>
      rw [hcc] at hc
      simp only [Except.ok.injEq] at hc
      subst hc
      obtain ⟨h1, h2, h3⟩ := h
      refine ⟨?_, ?_, ?_⟩
      · simp [updateRenderStats, h1]
      · simp [updateRenderStats, sumCounts_bump, h2]
      · simp [updateRenderStats, sumCounts_bump, h3]

theorem statsConsistent_renderLoop (reg : Registry) (host : HostBehavior)
    (l : List AGUIComponent) :
    ∀ st : RendererState, statsConsistent st →
    statsConsistent (renderLoop reg host l st).1 := by
  induction l with
  | nil => intro st h; exact h
  | cons c rest ih =>
      intro st h
      cases hc : renderSingleComponent reg host c st with
      | error e =>
          rw [renderLoop, hc]
          exact h
      | ok st1 =>
          rw [renderLoop, hc]
          exact ih st1 (statsConsistent_renderSingle reg host c st st1 hc h)

theorem orderedInsert_perm (a : AGUIComponent) (l : List AGUIComponent) :
    List.Perm (orderedInsert a l) (a :: l) := by
  induction l with
  | nil => exact List.Perm.refl _
  | cons b t ih =>
      cases hle : priorityLe a b with
      | true =>
          simp [orderedInsert, hle]
      | false =>
          rw [orderedInsert, hle]
          simp only [Bool.false_eq_true, if_false]
          exact (ih.cons b).trans (List.Perm.swap a b t)

theorem sortComponents_perm (l : List AGUIComponent) :
    List.Perm (sortComponents l) l := by
  induction l with
  | nil => exact List.Perm.refl _
  | cons a t ih => exact (orderedInsert_perm a _).trans (ih.cons a)

theorem pairwise_orderedInsert (a : AGUIComponent) (l : List AGUIComponent)
    (h : l.Pairwise (fun x y => x.priority ≤ y.priority)) :
    (orderedInsert a l).Pairwise (fun x y => x.priority ≤ y.priority) := by
  induction l with
  | nil => simp [orderedInsert]
  | cons b t ih =>
      rcases List.pairwise_cons.mp h with ⟨hb, ht⟩
      cases hle : priorityLe a b with
      | true =>
          have hab : a.priority ≤ b.priority := by
            simpa [priorityLe] using hle
          simp only [orderedInsert, hle, if_true]
          refine List.pairwise_cons.mpr ⟨?_, h⟩
          intro x hx
          rcases List.mem_cons.mp hx with rfl | hx2
          · exact hab
          · exact le_trans hab (hb x hx2)
      | false =>
          have hba : b.priority ≤ a.priority := by
            have : ¬ (a.priority ≤ b.priority) := by
              simpa [priorityLe] using hle
            omega
          rw [orderedInsert, hle]
          simp only [Bool.false_eq_true, if_false]
          refine List.pairwise_cons.mpr ⟨?_, ih ht⟩
          intro x hx
          have hx2 := (orderedInsert_perm a t).mem_iff.mp hx
          rcases List.mem_cons.mp hx2 with rfl | hx3
          · exact hba
          · exact hb x hx3

theorem sortComponents_pairwise (l : List AGUIComponent) :
    (sortComponents l).Pairwise (fun x y => x.priority ≤ y.priority) := by
  induction l with
  | nil => simp [sortComponents]
  | cons a t ih => exact pairwise_orderedInsert a _ ih

theorem filter_orderedInsert_pos (p : Int) (a : AGUIComponent)
    (l : List AGUIComponent) (ha : a.priority = p) :
    (orderedInsert a l).filter (fun c => decide (c.priority = p)) =
      a :: l.filter (fun c => decide (c.priority = p)) := by
  induction l with
  | nil => simp [orderedInsert, ha]
  | cons b t ih =>
      cases hle : priorityLe a b with
      | true => simp [orderedInsert, hle, List.filter_cons, ha]
      | false =>
          have hb : ¬ (b.priority = p) := by
            have : ¬ (a.priority ≤ b.priority) := by
              simpa [priorityLe] using hle
            omega
          rw [orderedInsert, hle]
          simp only [Bool.false_eq_true, if_false]
          simp [List.filter_cons, hb, ih]

theorem filter_orderedInsert_neg (p : Int) (a : AGUIComponent)
    (l : List AGUIComponent) (ha : ¬ (a.priority = p)) :
    (orderedInsert a l).filter (fun c => decide (c.priority = p)) =
      l.filter (fun c => decide (c.priority = p)) := by
  induction l with
  | nil => simp [orderedInsert, ha]
  | cons b t ih =>
      cases hle : priorityLe a b with
      | true => simp [orderedInsert, hle, List.filter_cons, ha]
      | false =>
          rw [orderedInsert, hle]
          simp only [Bool.false_eq_true, if_false]
          simp [List.filter_cons, ih]

theorem sortComponents_filter (l : List AGUIComponent) (p : Int) :
    (sortComponents l).filter (fun c => decide (c.priority = p)) =
      l.filter (fun c => decide (c.priority = p)) := by
  induction l with
  | nil => rfl
  | cons a t ih =>
      by_cases ha : a.priority = p
      · rw [sortComponents, filter_orderedInsert_pos p a _ ha, ih]
        simp [List.filter_cons, ha]
      · rw [sortComponents, filter_orderedInsert_neg p a _ ha, ih]
        simp [List.filter_cons, ha]

theorem sortComponents_length (l : List AGUIComponent) :
    (sortComponents l).length = l.length :=
  (sortComponents_perm l).length_eq

/-! Concrete fixtures for the witnesses and counterexamples. -/

/-- A host oracle that never rejects instantiation and whose widgets
expose both optional hooks. -/
def happyHost : HostBehavior :=
  { createError := fun _ => none
    exposesDataChange := fun _ => true
    exposesInteraction := fun _ => true }

/-- Sample manifest entry: a registered type with a high priority
value. -/
def entryA : AGUIComponent :=
  { id := "a", type := "text_section", title := "Overview", priority := 5,
    category := "content", data := 10, aguiSpecVersion := "1.0" }

/-- Sample manifest entry: a registered type with the lowest priority
value. -/
def entryB : AGUIComponent :=
  { id := "b", type := "checklist", title := "Actions", priority := 1,
    category := "action", data := 20, aguiSpecVersion := "1.0" }

/-- Sample manifest entry: a registered type with a middle priority
value. -/
def entryC : AGUIComponent :=
  { id := "c", type := "timeline", title := "Plan", priority := 3,
    category := "outcome", data := 30, aguiSpecVersion := "1.0" }

/-- Sample manifest entry: an unregistered type that has a static
fallback mapping to text_section. -/
def entryX : AGUIComponent :=
  { id := "x", type := "data_table", title := "Table", priority := 2,
    category := "content", data := 40, aguiSpecVersion := "1.0" }

/-- Sample manifest entry: an unregistered type with no static
fallback mapping. -/
def entryU : AGUIComponent :=
  { id := "u", type := "meeting_notes", title := "Notes", priority := 4,
    category := "content", data := 50, aguiSpecVersion := "1.0" }

/-- A manifest whose version does not match the supported protocol
version 1.0 but that carries three well-formed entries. -/
def manifestV2 : AGUIMessage :=
  { version := "2.0", msgType := "component_render", sessionId := "s1",
    timestamp := "t0", components := some [entryA, entryB, entryC] }

/-- A manifest with a present but empty components array. -/
def manifestEmptyList : AGUIMessage :=
  { version := "1.0", msgType := "component_render", sessionId := "s1",
    timestamp := "t0", components := some [] }

/-- A manifest with no components field. -/
def manifestNoComponents : AGUIMessage :=
  { version := "1.0", msgType := "chat_response", sessionId := "s1",
    timestamp := "t0", components := none }

/-- The registry metadata stored for text_section by
initializeRegistry. -/
def textSectionMeta : ComponentMetadata :=
  { componentClass := "TextSectionComponent", fallbackType := none,
    requiresInteraction := true, category := "content",
    displayName := "Text Section",
    description :=
      "Displays formatted text content with optional key points and metadata" }

/-! Claim theorems. -/

/-- C2: for every requested type that is not registered but has a
static fallback mapping to a registered type, createComponent returns
a result whose actualType is the mapped type, whose wasOriginalType is
false and whose metadata is the mapped type's registry entry; and
recording such a result with updateRenderStats increases fallbacksUsed
by exactly one. -/
theorem createComponent_static_fallback (reg : Registry)
    (host : HostBehavior) (c : AGUIComponent) (fbTy : String)
    (md : ComponentMetadata)
    (h1 : regGet reg c.type = none)
    (h2 : fallbackMappings c.type = some fbTy)
    (h3 : regGet reg fbTy = some md)
    (h4 : host.createError c = none) :
    ∃ r, createComponent reg host c = .ok r ∧
      r.actualType = fbTy ∧ r.wasOriginalType = false ∧ r.metadata = md ∧
      ∀ stats : RenderStatistics,
        (updateRenderStats c r stats).fallbacksUsed =
          stats.fallbacksUsed + 1 := by
  simp only [createComponent, resolveComponentType, findFallbackComponent,
    h1, h2, h3, h4]
  exact ⟨_, rfl, rfl, rfl, rfl, fun stats => by simp [updateRenderStats]⟩

/-- Witness for C2: requesting the unregistered type data_table on the
default registry falls back to text_section. -/
theorem createComponent_static_fallback_witness :
    regGet defaultRegistry entryX.type = none ∧
    fallbackMappings entryX.type = some DEFAULT_FALLBACK ∧
    regGet defaultRegistry DEFAULT_FALLBACK = some textSectionMeta ∧
    ∃ r, createComponent defaultRegistry happyHost entryX = .ok r ∧
      r.actualType = DEFAULT_FALLBACK ∧ r.wasOriginalType = false ∧
      r.metadata = textSectionMeta ∧
      ∀ stats : RenderStatistics,
        (updateRenderStats entryX r stats).fallbacksUsed =
          stats.fallbacksUsed + 1 :=
  ⟨by decide, by decide, by decide,
   createComponent_static_fallback defaultRegistry happyHost entryX
     DEFAULT_FALLBACK textSectionMeta (by decide) (by decide) (by decide) rfl⟩

/-- C9: for every requested type that is unregistered, has no static
fallback mapping, and with DEFAULT_FALLBACK (text_section) itself
unregistered, createComponent throws the configuration error for
every host behavior — before any instantiation is attempted — rather
than returning a result. -/
theorem createComponent_config_error (reg : Registry) (c : AGUIComponent)
    (h1 : regGet reg c.type = none)
    (h2 : fallbackMappings c.type = none)
    (h3 : regGet reg DEFAULT_FALLBACK = none) :
    ∀ host : HostBehavior,
      createComponent reg host c = .error (.configError DEFAULT_FALLBACK) := by
  intro host
  simp only [createComponent, resolveComponentType, findFallbackComponent,
    h1, h2, h3]

/-- Witness for C9: the unmapped type meeting_notes on an empty
registry. -/
theorem createComponent_config_error_witness :
    regGet ([] : Registry) entryU.type = none ∧
    fallbackMappings entryU.type = none ∧
    regGet ([] : Registry) DEFAULT_FALLBACK = none ∧
    createComponent ([] : Registry) happyHost entryU =
      .error (.configError DEFAULT_FALLBACK) :=
  ⟨rfl, by decide, rfl,
   createComponent_config_error [] entryU rfl (by decide) rfl happyHost⟩

/-- C7: cleanup (destroyAllComponents, and clearComponents built on
it) leaves zero managed instances and an empty host container, is
idempotent (a second consecutive call changes nothing), and is the
identity when no instances exist and the container is already empty. -/
theorem cleanup_releases_and_idempotent (st : RendererState) :
    (destroyAllComponents st).createdComponents = [] ∧
    (destroyAllComponents st).containerViews = 0 ∧
    destroyAllComponents (destroyAllComponents st) = destroyAllComponents st ∧
    (clearComponents st).createdComponents = [] ∧
    (clearComponents st).containerViews = 0 ∧
    clearComponents (clearComponents st) = clearComponents st ∧
    (st.createdComponents = [] → st.containerViews = 0 →
      destroyAllComponents st = st) := by
  refine ⟨rfl, rfl, rfl, rfl, rfl, rfl, ?_⟩
  intro h1 h2
  cases st with
  | mk a b c d e =>
      simp only at h1 h2
      subst h1
      subst h2
      rfl

/-- C10: at the end of every renderComponents call (completed or
failed, on any incoming state and any host behavior) and after every
clearComponents call, the recorded totalComponents equals the number
of managed instances and the sums of the per-type and per-category
count maps. -/
theorem render_stats_invariant (reg : Registry) (host : HostBehavior)
    (maxC t0 t1 : Nat) (msg : Option AGUIMessage) (st : RendererState) :
    statsConsistent ((renderComponents reg host maxC t0 t1 msg st).1) ∧
    statsConsistent (clearComponents st) := by
  refine ⟨?_, ⟨rfl, rfl, rfl⟩⟩
  cases msg with
  | none => exact ⟨rfl, rfl, rfl⟩
  | some m =>
    cases hc : m.components with
    | none =>
        simp only [renderComponents, hc]
        exact ⟨rfl, rfl, rfl⟩
    | some comps =>
        have hloop := statsConsistent_renderLoop reg host
          ((sortComponents comps).take maxC)
          (resetRenderStats (destroyAllComponents
            { st with isRendering := true, renderErrorMessage := none }))
          ⟨rfl, rfl, rfl⟩
        simp only [renderComponents, hc]
        cases hr : renderLoop reg host ((sortComponents comps).take maxC)
          (resetRenderStats (destroyAllComponents
            { st with isRendering := true, renderErrorMessage := none })) with
        | mk st2 err =>
            rw [hr] at hloop
            obtain ⟨ha, hb, hcc⟩ := hloop
            cases err with
            | none => exact ⟨ha, hb, hcc⟩
            | some f => exact ⟨ha, hb, hcc⟩

/-- Counterexample to C1: manifestV2's version (2.0) is not the
supported protocol version (1.0), yet renderComponents renders its
three entries instead of skipping rendering with zero instances. -/
theorem version_mismatch_still_renders :
    ¬ ((renderComponents defaultRegistry happyHost 50 0 5
          (some manifestV2) initialRendererState).1.createdComponents.length
        = 0) := by
  decide

/-- C1 amended: renderComponents never inspects the manifest version —
its outcome is identical under any two version values — and it skips
rendering (clearing state, zero instances, no events) exactly when the
message is null or its components field is absent; a version-mismatched
manifest with entries is rendered normally.  (The version check lives
only in AguiService.validateAguiMessage, which the render path does
not call.) -/
theorem renderComponents_ignores_version (reg : Registry)
    (host : HostBehavior) (maxC t0 t1 : Nat) (m : AGUIMessage)
    (st : RendererState) (v1 v2 : String) :
    (renderComponents reg host maxC t0 t1 (some { m with version := v1 }) st =
      renderComponents reg host maxC t0 t1 (some { m with version := v2 }) st) ∧
    (renderComponents reg host maxC t0 t1 none st =
      (clearComponents st, { completions := [], failures := [] })) ∧
    (m.components = none →
      renderComponents reg host maxC t0 t1 (some m) st =
        (clearComponents st, { completions := [], failures := [] }) ∧
      (clearComponents st).createdComponents = []) := by
  refine ⟨rfl, rfl, fun h => ⟨?_, rfl⟩⟩
  simp only [renderComponents, h]

/-- Counterexample to C8: with a present but empty entry list the
pass takes the completion path; with clock readings 0 and 5 it records
renderTime 5, so not every statistics field is left zero. -/
theorem empty_manifest_nonzero_render_time :
    ¬ ((renderComponents defaultRegistry happyHost 50 0 5
          (some manifestEmptyList) initialRendererState).1.renderStats.renderTime
        = 0) := by
  decide

/-- C8 amended: a null message or one whose components field is
absent clears state — zero instances, every statistics field zero, no
events.  A present but empty entry list also yields zero instances
and zero count statistics and is not an error, but the pass runs to
completion: renderTime is set to the elapsed time of the pass and one
completion event is emitted. -/
theorem render_nothing_outcomes (reg : Registry) (host : HostBehavior)
    (maxC t0 t1 : Nat) (m : AGUIMessage) (st : RendererState) :
    ((renderComponents reg host maxC t0 t1 none st).1.createdComponents = [] ∧
     (renderComponents reg host maxC t0 t1 none st).1.renderStats = initStats ∧
     (renderComponents reg host maxC t0 t1 none st).2 =
       { completions := [], failures := [] }) ∧
    (m.components = none →
      (renderComponents reg host maxC t0 t1 (some m) st).1.createdComponents = [] ∧
      (renderComponents reg host maxC t0 t1 (some m) st).1.renderStats = initStats ∧
      (renderComponents reg host maxC t0 t1 (some m) st).2 =
        { completions := [], failures := [] }) ∧
    (m.components = some [] →
      (renderComponents reg host maxC t0 t1 (some m) st).1.createdComponents = [] ∧
      (renderComponents reg host maxC t0 t1 (some m) st).1.renderStats =
        { initStats with renderTime := t1 - t0 } ∧
      (renderComponents reg host maxC t0 t1 (some m) st).2 =
        { completions := [{ initStats with renderTime := t1 - t0 }],
          failures := [] }) := by
  refine ⟨⟨rfl, rfl, rfl⟩, fun h => ?_, fun h => ?_⟩
  · cases m with
    | mk v mt sid ts comps =>
        simp only at h
        subst h
        exact ⟨rfl, rfl, rfl⟩
  · cases m with
    | mk v mt sid ts comps =>
        simp only at h
        subst h
        refine ⟨?_, ?_, ?_⟩ <;>
          simp [renderComponents, sortComponents, List.take_nil,
            renderLoop, resetRenderStats, destroyAllComponents, initStats]

/-- C3: for every widget created by a render pass that exposes the
interaction hook, one invocation of the hook with a click payload
emits exactly one interaction event to the host, carrying the entry's
id and requested type as captured at wiring time, eventType click
(and eventType interaction when the payload omits a type), the whole
payload as eventData, and a timestamp at or after the start of the
pass; the renderer state is unchanged. -/
theorem interaction_hook_emits_one_event (reg : Registry)
    (host : HostBehavior) (maxC t0 t1 : Nat) (msg : Option AGUIMessage)
    (st0 st : RendererState) (i now payload : Nat) (inst : CreatedInstance)
    (hst : st = (renderComponents reg host maxC t0 t1 msg st0).1)
    (hmem : st.createdComponents[i]? = some inst)
    (hhook : inst.hasInteractionHook = true)
    (hnow : t0 ≤ now) :
    invokeInteraction st i { type := some "click", payload := payload } now =
      (st, [{ componentId := inst.comp.id
              componentType := inst.comp.type
              eventType := "click"
              eventData := { type := some "click", payload := payload }
              timestamp := now }]) ∧
    invokeInteraction st i { type := none, payload := payload } now =
      (st, [{ componentId := inst.comp.id
              componentType := inst.comp.type
              eventType := "interaction"
              eventData := { type := none, payload := payload }
              timestamp := now }]) ∧
    t0 ≤ now := by
  have hne : ¬ (("click" : String) = "") := by decide
  refine ⟨?_, ?_, hnow⟩ <;>
    simp [invokeInteraction, hmem, hhook, jsOrElse, hne]

/-- The first managed instance after rendering manifestV2: entryB
(lowest priority) instantiated as checklist, with the merged payload
and both hooks exposed under happyHost. -/
def instB : CreatedInstance :=
  { comp := entryB
    actualType := "checklist"
    data := DataVal.merged 20 (aguiMetaOf entryB)
    hasDataChangeHook := true
    hasInteractionHook := true }

/-- Witness for C3 at a concrete render of manifestV2. -/
theorem interaction_hook_emits_one_event_witness :
    invokeInteraction (renderComponents defaultRegistry happyHost 50 0 5
        (some manifestV2) initialRendererState).1 0
        { type := some "click", payload := 7 } 9 =
      ((renderComponents defaultRegistry happyHost 50 0 5
          (some manifestV2) initialRendererState).1,
       [{ componentId := instB.comp.id
          componentType := instB.comp.type
          eventType := "click"
          eventData := { type := some "click", payload := 7 }
          timestamp := 9 }]) ∧
    invokeInteraction (renderComponents defaultRegistry happyHost 50 0 5
        (some manifestV2) initialRendererState).1 0
        { type := none, payload := 7 } 9 =
      ((renderComponents defaultRegistry happyHost 50 0 5
          (some manifestV2) initialRendererState).1,
       [{ componentId := instB.comp.id
          componentType := instB.comp.type
          eventType := "interaction"
          eventData := { type := none, payload := 7 }
          timestamp := 9 }]) ∧
    0 ≤ 9 :=
  interaction_hook_emits_one_event defaultRegistry happyHost 50 0 5
    (some manifestV2) initialRendererState
    (renderComponents defaultRegistry happyHost 50 0 5
      (some manifestV2) initialRendererState).1
    0 9 7 instB rfl (by decide) (by decide) (by decide)

/-- Counterexample to C6: after rendering manifestV2 under happyHost,
invoking the first widget's data-change hook with a fresh value emits
the event but the renderer's record of that widget's data does not
become the new value. -/
theorem data_change_does_not_update_record :
    ¬ ((((invokeDataChange (renderComponents defaultRegistry happyHost 50 0 5
              (some manifestV2) initialRendererState).1 0
            (DataVal.raw 99) 9).1.createdComponents[0]?).map
          (fun j => j.data)) = some (DataVal.raw 99)) := by
  decide

/-- C6 amended: for every created widget exposing the data-change
hook, each invocation with newData emits exactly one data-change
event carrying the entry's id and requested type, the renderer's
current record of the widget data as oldData, newData, and a fresh
timestamp — but the renderer state is left entirely unchanged: the
record of the widget's data keeps its previous value instead of being
replaced by newData (the widget itself is responsible for updating
its own data). -/
theorem data_change_hook_emits_without_writeback (reg : Registry)
    (host : HostBehavior) (maxC t0 t1 : Nat) (msg : Option AGUIMessage)
    (st0 st : RendererState) (i now : Nat) (inst : CreatedInstance)
    (newData : DataVal)
    (hst : st = (renderComponents reg host maxC t0 t1 msg st0).1)
    (hmem : st.createdComponents[i]? = some inst)
    (hhook : inst.hasDataChangeHook = true) :
    invokeDataChange st i newData now =
      (st, [{ componentId := inst.comp.id
              componentType := inst.comp.type
              oldData := inst.data
              newData := newData
              timestamp := now }]) := by
  simp [invokeDataChange, hmem, hhook]

/-- Witness for the amended C6 at a concrete render of manifestV2. -/
theorem data_change_hook_emits_without_writeback_witness :
    invokeDataChange (renderComponents defaultRegistry happyHost 50 0 5
        (some manifestV2) initialRendererState).1 0 (DataVal.raw 99) 9 =
      ((renderComponents defaultRegistry happyHost 50 0 5
          (some manifestV2) initialRendererState).1,
       [{ componentId := instB.comp.id
          componentType := instB.comp.type
          oldData := instB.data
          newData := DataVal.raw 99
          timestamp := 9 }]) :=
  data_change_hook_emits_without_writeback defaultRegistry happyHost 50 0 5
    (some manifestV2) initialRendererState
    (renderComponents defaultRegistry happyHost 50 0 5
      (some manifestV2) initialRendererState).1
    0 9 instB (DataVal.raw 99) rfl (by decide) (by decide)

/-- C4: whenever every entry of a manifest creates successfully, the
render pass renders exactly the ascending-priority sorted prefix of
the entry list up to maxComponents, in that order; the sort is stable
(each equal-priority class keeps its manifest order), the recorded
total counts only the rendered entries (the minimum of the cap and
the entry count), no failure is reported, and every rendered entry
has priority at most that of every entry dropped by the cap. -/
theorem renderAll_sorts_and_truncates (reg : Registry)
    (host : HostBehavior) (maxC t0 t1 : Nat) (m : AGUIMessage)
    (comps : List AGUIComponent) (st : RendererState)
    (hc : m.components = some comps)
    (hok : ∀ x ∈ comps, ∃ r, createComponent reg host x = .ok r) :
    ((renderComponents reg host maxC t0 t1 (some m) st).1.createdComponents.map
        (fun j => j.comp) = (sortComponents comps).take maxC) ∧
    (renderComponents reg host maxC t0 t1 (some m) st).2.failures = [] ∧
    (sortComponents comps).Pairwise (fun a b => a.priority ≤ b.priority) ∧
    (∀ p : Int,
      (sortComponents comps).filter (fun c => decide (c.priority = p)) =
        comps.filter (fun c => decide (c.priority = p))) ∧
    (renderComponents reg host maxC t0 t1
        (some m) st).1.renderStats.totalComponents = min maxC comps.length ∧
    (∀ a ∈ (sortComponents comps).take maxC,
      ∀ b ∈ (sortComponents comps).drop maxC, a.priority ≤ b.priority) := by
  have hok2 : ∀ x ∈ (sortComponents comps).take maxC,
      ∃ r, createComponent reg host x = .ok r := fun x hx =>
    hok x ((sortComponents_perm comps).mem_iff.mp
      (List.take_subset maxC (sortComponents comps) hx))
  obtain ⟨st1, hloop, hmap, htot, hview, hrend, herr⟩ :=
    renderLoop_ok_spec reg host ((sortComponents comps).take maxC)
      (resetRenderStats (destroyAllComponents
        { st with isRendering := true, renderErrorMessage := none })) hok2
  have hcross : ∀ a ∈ (sortComponents comps).take maxC,
      ∀ b ∈ (sortComponents comps).drop maxC, a.priority ≤ b.priority := by
    have hpw := sortComponents_pairwise comps
    rw [← List.take_append_drop maxC (sortComponents comps)] at hpw
    exact (List.pairwise_append.mp hpw).2.2
  refine ⟨?_, ?_, sortComponents_pairwise comps,
    sortComponents_filter comps, ?_, hcross⟩
  · simp only [renderComponents, hc, hloop]
    rw [hmap]
    simp [resetRenderStats, destroyAllComponents]
  · simp only [renderComponents, hc, hloop]
  · simp only [renderComponents, hc, hloop]
    rw [htot]
    simp [resetRenderStats, destroyAllComponents, initStats,
      List.length_take, sortComponents_length]

/-- Witness for C4: manifestV2's three entries under a cap of two
render as the two lowest-priority entries in sorted order. -/
theorem renderAll_sorts_and_truncates_witness :
    ((renderComponents defaultRegistry happyHost 2 0 5 (some manifestV2)
        initialRendererState).1.createdComponents.map
        (fun j => j.comp) =
      (sortComponents [entryA, entryB, entryC]).take 2) ∧
    (renderComponents defaultRegistry happyHost 2 0 5 (some manifestV2)
        initialRendererState).2.failures = [] ∧
    (sortComponents [entryA, entryB, entryC]).Pairwise
      (fun a b => a.priority ≤ b.priority) ∧
    (∀ p : Int,
      (sortComponents [entryA, entryB, entryC]).filter
          (fun c => decide (c.priority = p)) =
        [entryA, entryB, entryC].filter (fun c => decide (c.priority = p))) ∧
    (renderComponents defaultRegistry happyHost 2 0 5 (some manifestV2)
        initialRendererState).1.renderStats.totalComponents =
      min 2 [entryA, entryB, entryC].length ∧
    (∀ a ∈ (sortComponents [entryA, entryB, entryC]).take 2,
      ∀ b ∈ (sortComponents [entryA, entryB, entryC]).drop 2,
        a.priority ≤ b.priority) :=
  renderAll_sorts_and_truncates defaultRegistry happyHost 2 0 5 manifestV2
    [entryA, entryB, entryC] initialRendererState rfl
    (by
      intro x hx
      fin_cases hx <;> exact ⟨_, rfl⟩)

/-- A host oracle that rejects instantiation exactly for the entry
with id c, with a fixed cause. -/
def failingHost : HostBehavior :=
  { createError := fun c => if c.id = "c" then some "container rejected" else none
    exposesDataChange := fun _ => true
    exposesInteraction := fun _ => true }

/-- C5: when an entry of the sorted, truncated batch fails to create,
the pass renders exactly the entries before it — which remain mounted,
with no rollback — and nothing after it, emits no completion event,
and records and publishes exactly one render error carrying the
failing entry's id, its requested type and the underlying cause. -/
theorem render_failure_aborts_batch (reg : Registry) (host : HostBehavior)
    (maxC t0 t1 : Nat) (m : AGUIMessage) (comps : List AGUIComponent)
    (st : RendererState) (pre post : List AGUIComponent)
    (c : AGUIComponent) (e : CreateError)
    (hc : m.components = some comps)
    (hsplit : (sortComponents comps).take maxC = pre ++ c :: post)
    (hok : ∀ x ∈ pre, ∃ r, createComponent reg host x = .ok r)
    (hf : createComponent reg host c = .error e) :
    ((renderComponents reg host maxC t0 t1 (some m) st).1.createdComponents.map
        (fun j => j.comp) = pre) ∧
    (renderComponents reg host maxC t0 t1 (some m) st).1.containerViews =
      pre.length ∧
    (renderComponents reg host maxC t0 t1 (some m) st).2.completions = [] ∧
    (renderComponents reg host maxC t0 t1 (some m) st).2.failures =
      [{ componentId := c.id, componentType := c.type, cause := e }] ∧
    (renderComponents reg host maxC t0 t1 (some m) st).1.renderErrorMessage =
      some { componentId := c.id, componentType := c.type, cause := e } := by
  obtain ⟨st1, hloop, hmap, htot, hview⟩ :=
    renderLoop_fail_spec reg host pre c post e
      (resetRenderStats (destroyAllComponents
        { st with isRendering := true, renderErrorMessage := none })) hok hf
  refine ⟨?_, ?_, ?_, ?_, ?_⟩
  · simp only [renderComponents, hc, hsplit, hloop]
    rw [hmap]
    simp [resetRenderStats, destroyAllComponents]
  · simp only [renderComponents, hc, hsplit, hloop]
    rw [hview]
    simp [resetRenderStats, destroyAllComponents]
  · simp only [renderComponents, hc, hsplit, hloop]
  · simp only [renderComponents, hc, hsplit, hloop]
  · simp only [renderComponents, hc, hsplit, hloop]

/-- Witness for C5: under failingHost the entry with id c (priority 3,
second in sorted order) is rejected, so only entryB is rendered and
the batch is reported failed with that entry's id, type and cause. -/
theorem render_failure_aborts_batch_witness :
    ((renderComponents defaultRegistry failingHost 50 0 5 (some manifestV2)
        initialRendererState).1.createdComponents.map
        (fun j => j.comp) = [entryB]) ∧
    (renderComponents defaultRegistry failingHost 50 0 5 (some manifestV2)
        initialRendererState).1.containerViews = [entryB].length ∧
    (renderComponents defaultRegistry failingHost 50 0 5 (some manifestV2)
        initialRendererState).2.completions = [] ∧
    (renderComponents defaultRegistry failingHost 50 0 5 (some manifestV2)
        initialRendererState).2.failures =
      [{ componentId := entryC.id, componentType := entryC.type,
         cause := .hostError "container rejected" }] ∧
    (renderComponents defaultRegistry failingHost 50 0 5 (some manifestV2)
        initialRendererState).1.renderErrorMessage =
      some { componentId := entryC.id, componentType := entryC.type,
             cause := .hostError "container rejected" } :=
  render_failure_aborts_batch defaultRegistry failingHost 50 0 5 manifestV2
    [entryA, entryB, entryC] initialRendererState [entryB] [entryA]
    entryC (.hostError "container rejected") rfl (by decide)
    (by
      intro x hx
      fin_cases hx <;> exact ⟨_, rfl⟩)
    rfl

end DynRender
